import Mathlib

/-!
# Verification of the telegram-dify-bot media-group aggregator and delivery pipeline

Shallow embedding of the two source files

* `app/mybot/handlers/command_handler/imagine_command.py`
* `app/mybot/services/response_service/answer_parts/image_generation.py`

External effects (the Telegram transport, the HTTP downloader, and the
debounce sleep) are modelled by an explicit environment of response
functions plus a trace of emitted actions, so that the control flow of the
Python code is reproduced exactly while remaining executable.
-/

namespace TelegramDifyBot

/-! ## Python truthiness helpers -/

/-- Python truthiness of a string: nonempty strings are truthy. -/
def pyStrTruthy (s : String) : Bool := !(s == "")

/-- Python truthiness of an `Optional[str]`: `None` and `""` are falsy. -/
def pyOptStrTruthy : Option String → Bool
  | none => false
  | some s => pyStrTruthy s

/-- Python truthiness of an `Optional[int]` message id: `None` and `0` are falsy. -/
def pyIdTruthy : Option Nat → Bool
  | none => false
  | some n => !(n == 0)

/-- Python `a or b` on `Optional[int]` message ids. -/
def pyOr (a b : Option Nat) : Option Nat := if pyIdTruthy a then a else b

/-! ## Asset filename derivation (`_download_image_from_url`, lines 49-65)

`urlparse(url).path` followed by `Path(path).name`, an extension check, and
a uuid fallback.  `urlPath` is modelled from `urllib.parse.urlparse` for
http(s)-style URLs: the fragment is cut at `#`, the query at `?`, the
scheme/netloc pair is removed, and the remainder is the path. -/

/-- Position of the first `"://"` in a character list: the characters after
it, when present. -/
def afterSchemeSep : List Char → Option (List Char)
  | ':' :: '/' :: '/' :: rest => some rest
  | _ :: rest => afterSchemeSep rest
  | [] => none

/-- `urllib.parse._splitparams` applied to a path: when the path holds a
`/`, the portion of its last segment from the first `;` on is split off as
params; a slash-free path is cut at its first `;`. -/
def splitParams (p : List Char) : List Char :=
  if p.contains '/' then
    let revp := p.reverse
    (revp.dropWhile (fun c => !(c == '/'))).reverse ++
      ((revp.takeWhile (fun c => !(c == '/'))).reverse).takeWhile
        (fun c => !(c == ';'))
  else p.takeWhile (fun c => !(c == ';'))

/-- Path component of a URL, as `urllib.parse.urlparse(url).path` yields it
for ordinary absolute http(s)-style URLs (schemes in `uses_params`): cut
the fragment at `#` and the query at `?`, skip the scheme separator and the
netloc, keep from the first `/` on, and split `;params` off the last
segment. -/
def urlPathChars (l : List Char) : List Char :=
  let noFrag := l.takeWhile (fun c => !(c == '#'))
  let noQuery := noFrag.takeWhile (fun c => !(c == '?'))
  match afterSchemeSep noQuery with
  | some rest => splitParams (rest.dropWhile (fun c => !(c == '/')))
  | none => splitParams noQuery

/-- Path component of a URL (`urllib.parse.urlparse(url).path`). -/
def urlPath (url : String) : String := String.mk (urlPathChars url.data)

/-- The `/`-separated components of a character list. -/
def splitSlash : List Char → List (List Char)
  | [] => [[]]
  | '/' :: rest => [] :: splitSlash rest
  | c :: rest =>
      match splitSlash rest with
      | [] => [[c]]
      | comp :: comps => (c :: comp) :: comps

/-- `pathlib.PurePosixPath(p).name`: the last path component after pathlib
drops empty and `.` components (so trailing slashes are stripped), empty
when no component remains. -/
def pathName (p : String) : String :=
  String.mk (((splitSlash p.data).filter
    (fun c => !c.isEmpty && !(c == ['.']))).getLastD [])

/-- The recognized image extensions of `_download_image_from_url`. -/
def imageExts : List String := [".jpg", ".jpeg", ".png", ".webp"]

/-- ASCII lowercasing on code points, enough for the extension check. -/
def lowerNat (n : Nat) : Nat := if 65 ≤ n && n ≤ 90 then n + 32 else n

/-- Case-insensitive suffix test, as `s.lower().endswith(suffix)` computes
it for the ASCII extension literals. -/
def endsWithCI (suffix s : List Char) : Bool :=
  ((s.reverse.take suffix.length).reverse.map (fun c => lowerNat c.toNat))
    == suffix.map (fun c => c.toNat)

/-- `filename.lower().endswith(('.jpg', '.jpeg', '.png', '.webp'))`. -/
def hasImageExt (s : String) : Bool := imageExts.any (fun e => endsWithCI e.data s.data)

/-- Target filename chosen by `_download_image_from_url` (lines 53-56).
`uuidHex` stands for the `uuid.uuid4().hex` draw used in the fallback. -/
def filename_for_url (url : String) (uuidHex : String) : String :=
  if !(pyStrTruthy (pathName (urlPath url))) ||
      !(hasImageExt (pathName (urlPath url))) then uuidHex ++ ".jpeg"
  else pathName (urlPath url)

/-! ## Media-group aggregator (`imagine_command.py`)

The cache helpers `add_message_to_media_group_cache` and
`get_media_group_messages` live in `mybot.common`, which is not part of the
two source files; they are modelled from the spec (§3 MediaGroupKey, §4.1
step 1, §8 idempotence): an append-only, per-group-key, arrival-ordered,
idempotent store of message ids. -/

/-- A received Telegram message, reduced to the fields the aggregator reads. -/
structure TgMsg where
  messageId : Nat
  mediaGroupId : Option String
deriving DecidableEq

/-- The process-wide media-group cache: group id ↦ arrival-ordered message ids. -/
abbrev MediaCache := List (String × List Nat)

/-- Message ids cached for group `g` (empty when the key is absent). -/
def lookupGroup (c : MediaCache) (g : String) : List Nat :=
  (((c.find? (fun kv => kv.1 == g)).map (fun kv => kv.2)).getD [])

/-- Modelled from the spec: `add_message_to_media_group_cache` of
`mybot.common` (not under src/) — record the fragment under its group key,
append-only in arrival order, idempotent on an already-present message id;
fragments with no group identifier are singleton groups and need no entry. -/
def add_message_to_media_group_cache (c : MediaCache) (m : TgMsg) : MediaCache :=
  match m.mediaGroupId with
  | none => c
  | some g =>
      if (c.find? (fun kv => kv.1 == g)).isSome then
        if m.messageId ∈ lookupGroup c g then c
        else c.map (fun kv => if kv.1 == g then (kv.1, kv.2 ++ [m.messageId]) else kv)
      else c ++ [(g, [m.messageId])]

/-- Modelled from the spec: `get_media_group_messages` of `mybot.common`
(not under src/) — the fragments currently cached for the message's group;
a message with no group identifier is a singleton group of itself. -/
def get_media_group_messages (c : MediaCache) (m : TgMsg) : List Nat :=
  match m.mediaGroupId with
  | none => [m.messageId]
  | some g => lookupGroup c g

/-- Observable steps of `_collect_media_group_files` (lines 99-132). -/
inductive AggEvent
  | cacheAdd (messageId : Nat)
  | readCount (count : Nat)
  | sleepDebounce
  | downloadGroup (messageIds : List Nat)
deriving DecidableEq

/-- `_collect_media_group_files` (lines 99-132), restricted to its cache and
wait behaviour.  `arrive` describes how the shared cache evolves while the
fixed 0.8 s debounce sleep suspends this handler (sibling fragments landing);
the final `downloadGroup` step stands for `download_media_group_files`,
which resolves the fragments of the message's group at that moment. -/
def collect_media_group_files (cache : MediaCache) (msg : TgMsg)
    (arrive : MediaCache → MediaCache) : MediaCache × List AggEvent :=
  let c1 := add_message_to_media_group_cache cache msg
  if pyOptStrTruthy msg.mediaGroupId then
    let count := (get_media_group_messages c1 msg).length
    if count ≤ 1 then
      let c2 := arrive c1
      (c2, [.cacheAdd msg.messageId, .readCount count, .sleepDebounce,
            .readCount (get_media_group_messages c2 msg).length,
            .downloadGroup (get_media_group_messages c2 msg)])
    else
      (c1, [.cacheAdd msg.messageId, .readCount count,
            .downloadGroup (get_media_group_messages c1 msg)])
  else
    (c1, [.cacheAdd msg.messageId, .downloadGroup (get_media_group_messages c1 msg)])

/-! ## Media-mapping merge (`imagine_command`, lines 179-200) -/

/-- A media-files mapping as the Python dict `kind ↦ list of local paths`,
in insertion order (Python dicts preserve it). -/
abbrev MediaFiles := List (String × List String)

/-- Value of kind `k` in the mapping, `[]` when the key is absent. -/
def lookupMedia (m : MediaFiles) (k : String) : List String :=
  (((m.find? (fun kv => kv.1 == k)).map (fun kv => kv.2)).getD [])

/-- `has_media` as `_collect_media_group_files` computes it (lines 135-142):
some kind has a nonempty path list. -/
def hasMediaFn (m : MediaFiles) : Bool := m.any (fun kv => !kv.2.isEmpty)

/-- One step of the merge loop (lines 191-196): ensure the key exists, then
extend its list with the reply's paths; kinds with empty path lists are
skipped by the `if paths:` guard. -/
def mergeStep (acc : MediaFiles) (kv : String × List String) : MediaFiles :=
  if kv.2.isEmpty then acc
  else if acc.any (fun e => e.1 == kv.1) then
    acc.map (fun e => if e.1 == kv.1 then (e.1, e.2 ++ kv.2) else e)
  else acc ++ [kv]

/-- The reply-media merge of `imagine_command` (lines 185-196): when the
replied-to message contributed media, fold its mapping into the trigger's;
when the trigger's mapping is empty (falsy), adopt the reply's wholesale. -/
def merge_media_files (trigger reply : MediaFiles) : MediaFiles :=
  if hasMediaFn reply && !reply.isEmpty then
    if trigger.isEmpty then reply
    else reply.foldl mergeStep trigger
  else trigger

/-! ## Handler tail (`imagine_command`, lines 202-253) -/

/-- Externally visible steps of the handler tail. -/
inductive HEvent
  | sendHelp
  | setReaction
  | invokeGeneration (prompt : String)
  | sendStreamingResponse
  | sendErrorNotice
deriving DecidableEq

/-- `_reply_help` (lines 59-76): sends the fixed usage message and returns
`True` exactly when neither prompt nor media is present. -/
def reply_help (prompt : String) (hasMedia : Bool) : Bool × List HEvent :=
  if pyStrTruthy prompt || hasMedia then (false, [])
  else (true, [.sendHelp])

/-- The fixed default prompt substituted for media-only generation (line 208). -/
def defaultMediaPrompt : String := "请参考附件信息"

/-- Tail of `imagine_command` (lines 202-253): help check, default-prompt
substitution, reaction, generation invocation; `genOk` abstracts whether the
Dify streaming call and response delivery raise. -/
def imagine_command_tail (prompt : String) (hasMedia : Bool) (genOk : Bool) :
    List HEvent :=
  let help := reply_help prompt hasMedia
  if help.1 then help.2
  else
    let prompt := if !pyStrTruthy prompt && hasMedia then defaultMediaPrompt else prompt
    help.2 ++ [.setReaction, .invokeGeneration prompt] ++
      (if genOk then [.sendStreamingResponse] else [.sendErrorNotice])

/-! ## Delivery pipeline (`image_generation.py`)

The Telegram transport and the HTTP downloader are modelled by an
environment `Env` of response functions; every outgoing call is also
recorded in an `Action` trace.  Image bytes (`Path(p).read_bytes()`) are
represented by the file path itself, which is injective for the pipeline's
purposes.  A raised `telegram` exception is an `Err`; `Err.captionTooLong`
stands for an exception whose text contains `"Message caption is too long"`. -/

/-- Exceptions raised by transport calls. -/
inductive Err
  | captionTooLong
  | other (code : Nat)
deriving DecidableEq

/-- Arguments of `bot.send_photo`. -/
structure PhotoSendArgs where
  chatId : Nat
  photo : String
  caption : Option String
  replyTo : Option Nat
  parseMode : Option String
deriving DecidableEq

/-- One `InputMediaPhoto` entry. -/
structure MediaItem where
  media : String
  caption : Option String
  parseMode : Option String
deriving DecidableEq

/-- Arguments of `bot.send_media_group` over `InputMediaPhoto` items. -/
structure GroupSendArgs where
  chatId : Nat
  media : List MediaItem
  replyTo : Option Nat
deriving DecidableEq

/-- Arguments of `bot.send_document`. -/
structure DocArgs where
  chatId : Nat
  document : String
  filename : String
  caption : String
  replyTo : Option Nat
deriving DecidableEq

/-- One `InputMediaDocument` entry. -/
structure DocItem where
  media : String
  filename : String
  caption : Option String
deriving DecidableEq

/-- Arguments of `bot.send_media_group` over `InputMediaDocument` items. -/
structure DocGroupSendArgs where
  chatId : Nat
  media : List DocItem
  replyTo : Option Nat
deriving DecidableEq

/-- Responses of the external world: the HTTP downloader and the five
Telegram transport operations the pipeline uses. -/
structure Env where
  download : String → Option String
  sendPhoto : PhotoSendArgs → Except Err Nat
  sendMediaGroup : GroupSendArgs → Except Err (List Nat)
  deleteMessage : Nat → Nat → Except Err Unit
  sendDocument : DocArgs → Except Err Nat
  sendDocGroup : DocGroupSendArgs → Except Err (List Nat)

/-- One outgoing call of the pipeline. -/
inductive Action
  | download (url : String)
  | sendPhoto (a : PhotoSendArgs)
  | sendMediaGroup (a : GroupSendArgs)
  | deleteMessage (chatId messageId : Nat)
  | sendDocument (a : DocArgs)
  | sendDocGroup (a : DocGroupSendArgs)
deriving DecidableEq

/-- The download loop of `_send_imagine_result` (lines 256-262):
`for url in image_urls[:10]`, appending only successful downloads. -/
def downloadImages (env : Env) (imageUrls : List String) :
    List String × List Action :=
  (imageUrls.take 10).foldl
    (fun acc url =>
      match env.download url with
      | some fp => (acc.1 ++ [fp], acc.2 ++ [.download url])
      | none => (acc.1, acc.2 ++ [.download url]))
    ([], [])

/-- `_send_single_photo_with_caption` (lines 74-103): one captioned send,
and on a caption-too-long exception exactly one uncaptioned retry of the
same send; the placeholder deletion follows each successful send; any
other exception propagates. -/
def send_single_photo_with_caption (env : Env) (chatId : Nat) (caption : String)
    (replyTo : Option Nat) (parseMode : String) (deleteMessageId : Nat)
    (photo : String) : Except Err Nat × List Action :=
  let args1 : PhotoSendArgs :=
    ⟨chatId, photo, some caption, replyTo, some parseMode⟩
  match env.sendPhoto args1 with
  | .ok m =>
      match env.deleteMessage chatId deleteMessageId with
      | .ok _ => (.ok m, [.sendPhoto args1, .deleteMessage chatId deleteMessageId])
      | .error e => (.error e, [.sendPhoto args1, .deleteMessage chatId deleteMessageId])
  | .error e =>
      if e == .captionTooLong then
        let args2 : PhotoSendArgs := ⟨chatId, photo, none, replyTo, none⟩
        match env.sendPhoto args2 with
        | .ok m =>
            match env.deleteMessage chatId deleteMessageId with
            | .ok _ =>
                (.ok m, [.sendPhoto args1, .sendPhoto args2,
                         .deleteMessage chatId deleteMessageId])
            | .error e2 =>
                (.error e2, [.sendPhoto args1, .sendPhoto args2,
                             .deleteMessage chatId deleteMessageId])
        | .error e2 => (.error e2, [.sendPhoto args1, .sendPhoto args2])
      else (.error e, [.sendPhoto args1])

/-- The captioned media group of `_send_photo_group_with_caption`
(lines 117-123): the first item carries the caption and parse mode. -/
def buildPhotoGroup (files : List String) (caption : String)
    (parseMode : String) : List MediaItem :=
  match files with
  | [] => []
  | f :: rest => ⟨f, some caption, some parseMode⟩ :: rest.map (fun p => ⟨p, none, none⟩)

/-- The caption-free media group rebuilt at lines 135-138. -/
def buildPhotoGroupNoCaption (files : List String) : List MediaItem :=
  files.map (fun p => ⟨p, none, none⟩)

/-- `_send_photo_group_with_caption` (lines 106-145): one captioned batch
send, and on a caption-too-long exception exactly one caption-free rebuild
and resend; the placeholder deletion follows each successful send; any
other exception propagates. -/
def send_photo_group_with_caption (env : Env) (chatId : Nat) (caption : String)
    (replyTo : Option Nat) (parseMode : String) (deleteMessageId : Nat)
    (downloadedFiles : List String) : Except Err (List Nat) × List Action :=
  let args1 : GroupSendArgs :=
    ⟨chatId, buildPhotoGroup downloadedFiles caption parseMode, replyTo⟩
  match env.sendMediaGroup args1 with
  | .ok ms =>
      match env.deleteMessage chatId deleteMessageId with
      | .ok _ => (.ok ms, [.sendMediaGroup args1, .deleteMessage chatId deleteMessageId])
      | .error e => (.error e, [.sendMediaGroup args1, .deleteMessage chatId deleteMessageId])
  | .error e =>
      if e == .captionTooLong then
        let args2 : GroupSendArgs :=
          ⟨chatId, buildPhotoGroupNoCaption downloadedFiles, replyTo⟩
        match env.sendMediaGroup args2 with
        | .ok ms =>
            match env.deleteMessage chatId deleteMessageId with
            | .ok _ =>
                (.ok ms, [.sendMediaGroup args1, .sendMediaGroup args2,
                          .deleteMessage chatId deleteMessageId])
            | .error e2 =>
                (.error e2, [.sendMediaGroup args1, .sendMediaGroup args2,
                             .deleteMessage chatId deleteMessageId])
        | .error e2 => (.error e2, [.sendMediaGroup args1, .sendMediaGroup args2])
      else (.error e, [.sendMediaGroup args1])

/-- The document group of `_send_original_files` (lines 191-205): the first
item carries the count-bearing caption. -/
def buildDocGroup (files : List String) : List DocItem :=
  match files with
  | [] => []
  | f :: rest =>
      ⟨f, pathName f,
        some ("📎 Original files (" ++ toString files.length ++ " images, uncompressed)")⟩
      :: rest.map (fun p => ⟨p, pathName p, none⟩)

/-- The `try` block of `_send_original_files` (lines 178-216): a single
file goes out as one captioned document, several files as a document group. -/
def originalsAttempt (env : Env) (chatId : Nat) (files : List String)
    (replyTo : Option Nat) : Except Err Unit × Action :=
  match files with
  | [f] =>
      let args : DocArgs := ⟨chatId, f, pathName f, "📎 Original (uncompressed)", replyTo⟩
      (match env.sendDocument args with
       | .ok _ => .ok ()
       | .error e => .error e,
       .sendDocument args)
  | _ =>
      let args : DocGroupSendArgs := ⟨chatId, buildDocGroup files, replyTo⟩
      (match env.sendDocGroup args with
       | .ok _ => .ok ()
       | .error e => .error e,
       .sendDocGroup args)

/-- `_send_original_files` (lines 148-232): reply target is the preview
message id when truthy, else the trigger id; on failure, when both ids are
truthy and distinct, recurse once with the preview id dropped. -/
def send_original_files (env : Env) (chatId : Nat) (downloadedFiles : List String)
    (previewMessageId triggerMessageId : Option Nat) : Bool × List Action :=
  if downloadedFiles.isEmpty then (false, [])
  else
    let replyTo := pyOr previewMessageId triggerMessageId
    let att := originalsAttempt env chatId downloadedFiles replyTo
    match att.1 with
    | .ok _ => (true, [att.2])
    | .error _ =>
        if h : pyIdTruthy previewMessageId = true ∧ pyIdTruthy triggerMessageId = true ∧
            previewMessageId ≠ triggerMessageId then
          let retry := send_original_files env chatId downloadedFiles none triggerMessageId
          (retry.1, att.2 :: retry.2)
        else (false, [att.2])
termination_by (if pyIdTruthy previewMessageId then 1 else 0)
decreasing_by
  cases previewMessageId with
  | none => simp [pyIdTruthy] at h
  | some n =>
      simp only [pyIdTruthy] at h ⊢
      simp [h.1]

/-- The parse-mode strings of `telegram.constants.ParseMode`; `strPM none`
is Python's `str(None)`, the string actually passed at the no-formatting
step because `_send_imagine_result` applies `str` to each list element. -/
inductive PMode
  | html
  | markdownV2
deriving DecidableEq

/-- `str(parse_mode)` for the three entries of the fallback list. -/
def strPM : Option PMode → String
  | some .html => "HTML"
  | some .markdownV2 => "MarkdownV2"
  | none => "None"

/-- The fixed fallback ordering of `_send_imagine_result` (line 277):
`[ParseMode.HTML, ParseMode.MARKDOWN_V2, None]`. -/
def parseModes : List (Option PMode) := [some PMode.html, some PMode.markdownV2, none]

/-- Caption selection at line 283: the HTML caption for the HTML format,
the markdown caption otherwise. -/
def chosenCaption (pm : Option PMode) (captionHtml captionMarkdown : String) : String :=
  if pm == some PMode.html then captionHtml else captionMarkdown

/-- One iteration body of the format loop (lines 284-311): dispatch on the
file count, and on success record the sent preview id (first id if batch). -/
def attemptFormat (env : Env) (chatId : Nat) (files : List String) (caption : String)
    (replyTo : Option Nat) (parseMode : String) (initialMessageId : Nat)
    (preview : Option Nat) : Except Err Unit × List Action × Option Nat :=
  match files with
  | [f] =>
      let r := send_single_photo_with_caption env chatId caption replyTo
        parseMode initialMessageId f
      match r.1 with
      | .ok m => (.ok (), r.2, some m)
      | .error e => (.error e, r.2, preview)
  | _ =>
      let r := send_photo_group_with_caption env chatId caption replyTo
        parseMode initialMessageId files
      match r.1 with
      | .ok ms =>
          (.ok (), r.2, match ms with | m :: _ => some m | [] => preview)
      | .error e => (.error e, r.2, preview)

/-- The format loop of `_send_imagine_result` (lines 282-350): on a normal
return send the originals against the updated preview id and return `True`;
on a caption-too-long exception send the originals against the unchanged
preview id and return `True`; on any other exception continue with the next
format; an exhausted list returns `False`. -/
def tryFormats (env : Env) (chatId : Nat) (files : List String)
    (captionHtml captionMarkdown : String) (replyTo : Option Nat)
    (initialMessageId : Nat) (triggerMessageId : Option Nat) :
    Option Nat → List (Option PMode) → Bool × List Action
  | _, [] => (false, [])
  | preview, pm :: rest =>
      let caption := chosenCaption pm captionHtml captionMarkdown
      let att := attemptFormat env chatId files caption replyTo
        (strPM pm) initialMessageId preview
      match att.1 with
      | .ok _ =>
          let originals := send_original_files env chatId files att.2.2 triggerMessageId
          (true, att.2.1 ++ originals.2)
      | .error e =>
          if e == .captionTooLong then
            let originals := send_original_files env chatId files preview triggerMessageId
            (true, att.2.1 ++ originals.2)
          else
            let next := tryFormats env chatId files captionHtml captionMarkdown
              replyTo initialMessageId triggerMessageId preview rest
            (next.1, att.2.1 ++ next.2)

/-- The `params` dict entries read at lines 273-274. -/
structure GenParams where
  captionMarkdown : Option String
  captionHtml : Option String
deriving DecidableEq

/-- Caption pair chosen at lines 269-274: a truthy `final_answer` is used
for both formats, otherwise the `params` entries with their defaults. -/
def captionsFor (finalAnswer : Option String) (params : GenParams) : String × String :=
  if pyOptStrTruthy finalAnswer then
    (finalAnswer.getD "", finalAnswer.getD "")
  else
    let capMd := params.captionMarkdown.getD ""
    let capHtml := params.captionHtml.getD capMd
    (capHtml, capMd)

/-- `_send_imagine_result` (lines 235-350): guard on the URL list, download
at most ten images, guard on the download results, pick the captions, and
run the format loop with an initially absent preview id. -/
def send_imagine_result (env : Env) (chatId : Nat) (imageUrls : List String)
    (params : GenParams) (replyTo : Option Nat) (initialMessageId : Nat)
    (finalAnswer : Option String) (triggerMessageId : Option Nat) :
    Bool × List Action :=
  if imageUrls.isEmpty then (false, [])
  else
    let downloaded := downloadImages env imageUrls
    if downloaded.1.isEmpty then (false, downloaded.2)
    else
      let caps := captionsFor finalAnswer params
      let sent := tryFormats env chatId downloaded.1 caps.1 caps.2 replyTo
        initialMessageId triggerMessageId none parseModes
      (sent.1, downloaded.2 ++ sent.2)

/-! ## Trace observations used by the claims -/

/-- Does an action send preview content with the given parse-mode string? -/
def usesFormat (s : String) : Action → Bool
  | .sendPhoto a => a.parseMode == some s
  | .sendMediaGroup a => a.media.any (fun m => m.parseMode == some s)
  | _ => false

/-- Is an action an originals (uncompressed document) send attempt? -/
def isOriginalsSend : Action → Bool
  | .sendDocument _ => true
  | .sendDocGroup _ => true
  | _ => false

/-- The reply targets of the originals send attempts of a trace, in order. -/
def originalsReplyTargets (tr : List Action) : List (Option Nat) :=
  tr.filterMap (fun a =>
    match a with
    | .sendDocument d => some d.replyTo
    | .sendDocGroup d => some d.replyTo
    | _ => none)

/-- `env` with the two document senders replaced — used to state that the
pipeline's reported result does not depend on the originals stage. -/
def withDocSenders (env : Env) (d : DocArgs → Except Err Nat)
    (g : DocGroupSendArgs → Except Err (List Nat)) : Env :=
  { env with sendDocument := d, sendDocGroup := g }

/-! ## Shared helper lemmas -/

/-- Closed form of the download loop: the first ten URLs are each fetched
once, in order, and exactly the successful fetches are kept, in order. -/
theorem downloadImages_spec (env : Env) (imageUrls : List String) :
    downloadImages env imageUrls =
      ((imageUrls.take 10).filterMap env.download,
       (imageUrls.take 10).map Action.download) := by
  have hfold : ∀ (l : List String) (a : List String) (t : List Action),
      l.foldl (fun acc url =>
        match env.download url with
        | some fp => (acc.1 ++ [fp], acc.2 ++ [Action.download url])
        | none => (acc.1, acc.2 ++ [Action.download url])) (a, t)
        = (a ++ l.filterMap env.download, t ++ l.map Action.download) := by
    intro l
    induction l with
    | nil => intro a t; simp
    | cons u l ih =>
        intro a t
        cases h : env.download u with
        | none =>
            simp only [List.foldl_cons, h, List.filterMap_cons, List.map_cons]
            rw [ih]
            simp
        | some fp =>
            simp only [List.foldl_cons, h, List.filterMap_cons, List.map_cons]
            rw [ih]
            simp
  unfold downloadImages
  rw [hfold]
  simp

/-- A string keeps its inequality after appending the same suffix. -/
theorem string_append_right_cancel (a b s : String) (h : a ++ s = b ++ s) :
    a = b := by
  have hd : a.data ++ s.data = b.data ++ s.data := by
    rw [← String.data_append, ← String.data_append, h]
  exact String.ext (List.append_cancel_right hd)

/-- The originals attempt emits a single document-send action. -/
theorem originalsAttempt_isSend (env : Env) (chatId : Nat) (files : List String)
    (replyTo : Option Nat) :
    isOriginalsSend (originalsAttempt env chatId files replyTo).2 = true := by
  rcases files with _ | ⟨f, _ | ⟨f2, fs⟩⟩ <;> rfl

/-- Prepending the originals attempt's action contributes exactly its reply
target to the target list. -/
theorem originalsReplyTargets_attempt_cons (env : Env) (chatId : Nat)
    (files : List String) (replyTo : Option Nat) (l : List Action) :
    originalsReplyTargets ((originalsAttempt env chatId files replyTo).2 :: l)
      = replyTo :: originalsReplyTargets l := by
  rcases files with _ | ⟨f, _ | ⟨f2, fs⟩⟩ <;> rfl

/-- The retry call (preview id dropped) makes exactly one attempt, against
the trigger id. -/
theorem send_original_files_none_targets (env : Env) (chatId : Nat)
    (files : List String) (t : Option Nat) (hne : ¬files.isEmpty = true) :
    originalsReplyTargets (send_original_files env chatId files none t).2 = [t] := by
  rw [send_original_files, if_neg hne]
  cases hr : (originalsAttempt env chatId files (pyOr none t)).1 with
  | ok u =>
      simp only [hr]
      rw [originalsReplyTargets_attempt_cons]
      rfl
  | error e =>
      simp only [hr]
      rw [dif_neg (by simp [pyIdTruthy])]
      rw [originalsReplyTargets_attempt_cons]
      rfl

/-- Reply-target trichotomy of `_send_original_files`: no attempt (empty
file list), one attempt against `preview or trigger`, or — exactly when the
first attempt failed with both ids truthy and distinct — two attempts
against the preview id then the trigger id. -/
theorem send_original_files_targets (env : Env) (chatId : Nat)
    (files : List String) (p t : Option Nat) :
    originalsReplyTargets (send_original_files env chatId files p t).2 = [] ∨
    originalsReplyTargets (send_original_files env chatId files p t).2 = [pyOr p t] ∨
    (originalsReplyTargets (send_original_files env chatId files p t).2 = [p, t] ∧
      pyIdTruthy p = true ∧ pyIdTruthy t = true ∧ p ≠ t) := by
  by_cases hne : files.isEmpty = true
  · left
    rw [send_original_files, if_pos hne]
    rfl
  · rw [send_original_files, if_neg hne]
    cases hr : (originalsAttempt env chatId files (pyOr p t)).1 with
    | ok u =>
        right; left
        simp only [hr]
        rw [originalsReplyTargets_attempt_cons]
        rfl
    | error e =>
        simp only [hr]
        by_cases hcond : pyIdTruthy p = true ∧ pyIdTruthy t = true ∧ p ≠ t
        · right; right
          rw [dif_pos hcond]
          refine ⟨?_, hcond.1, hcond.2.1, hcond.2.2⟩
          simp only []
          rw [originalsReplyTargets_attempt_cons,
            send_original_files_none_targets env chatId files t hne]
          rw [show pyOr p t = p by unfold pyOr; rw [if_pos hcond.1]]
        · right; left
          rw [dif_neg hcond]
          rw [originalsReplyTargets_attempt_cons]
          rfl

/-- Every action of the originals stage is a document send. -/
theorem send_original_files_actions (env : Env) (chatId : Nat)
    (files : List String) (p t : Option Nat) :
    ∀ a ∈ (send_original_files env chatId files p t).2, isOriginalsSend a = true := by
  intro a ha
  by_cases hne : files.isEmpty = true
  · rw [send_original_files, if_pos hne] at ha
    simp at ha
  · rw [send_original_files, if_neg hne] at ha
    cases hr : (originalsAttempt env chatId files (pyOr p t)).1 with
    | ok u =>
        simp only [hr] at ha
        simp at ha
        rw [ha]
        exact originalsAttempt_isSend env chatId files (pyOr p t)
    | error e =>
        simp only [hr] at ha
        by_cases hcond : pyIdTruthy p = true ∧ pyIdTruthy t = true ∧ p ≠ t
        · rw [dif_pos hcond] at ha
          simp only [] at ha
          rcases List.mem_cons.mp ha with h1 | h2
          · rw [h1]
            exact originalsAttempt_isSend env chatId files (pyOr p t)
          · rw [send_original_files, if_neg hne] at h2
            cases hr2 : (originalsAttempt env chatId files (pyOr none t)).1 with
            | ok u2 =>
                simp only [hr2] at h2
                simp at h2
                rw [h2]
                exact originalsAttempt_isSend env chatId files (pyOr none t)
            | error e2 =>
                simp only [hr2] at h2
                rw [dif_neg (by simp [pyIdTruthy])] at h2
                simp at h2
                rw [h2]
                exact originalsAttempt_isSend env chatId files (pyOr none t)
        · rw [dif_neg hcond] at ha
          simp at ha
          rw [ha]
          exact originalsAttempt_isSend env chatId files (pyOr p t)

/-- A nonempty file list guarantees at least one originals send attempt. -/
theorem send_original_files_attempts (env : Env) (chatId : Nat)
    (files : List String) (p t : Option Nat) (hne : ¬files.isEmpty = true) :
    ∃ a ∈ (send_original_files env chatId files p t).2, isOriginalsSend a = true := by
  rw [send_original_files, if_neg hne]
  cases hr : (originalsAttempt env chatId files (pyOr p t)).1 with
  | ok u =>
      simp only [hr]
      exact ⟨_, List.mem_cons_self _ _, originalsAttempt_isSend env chatId files (pyOr p t)⟩
  | error e =>
      simp only [hr]
      by_cases hcond : pyIdTruthy p = true ∧ pyIdTruthy t = true ∧ p ≠ t
      · rw [dif_pos hcond]
        exact ⟨_, List.mem_cons_self _ _, originalsAttempt_isSend env chatId files (pyOr p t)⟩
      · rw [dif_neg hcond]
        exact ⟨_, List.mem_cons_self _ _, originalsAttempt_isSend env chatId files (pyOr p t)⟩

/-- Replacing the document senders does not change the download stage. -/
theorem downloadImages_withDocSenders (env : Env) (d : DocArgs → Except Err Nat)
    (g : DocGroupSendArgs → Except Err (List Nat)) (urls : List String) :
    downloadImages (withDocSenders env d g) urls = downloadImages env urls := rfl

/-- Replacing the document senders does not change a format attempt. -/
theorem attemptFormat_withDocSenders (env : Env) (d : DocArgs → Except Err Nat)
    (g : DocGroupSendArgs → Except Err (List Nat)) (chatId : Nat)
    (files : List String) (caption : String) (replyTo : Option Nat)
    (parseMode : String) (initialMessageId : Nat) (preview : Option Nat) :
    attemptFormat (withDocSenders env d g) chatId files caption replyTo
        parseMode initialMessageId preview
      = attemptFormat env chatId files caption replyTo parseMode
        initialMessageId preview := by
  rcases files with _ | ⟨f, _ | ⟨f2, fs⟩⟩ <;> rfl

/-- The Boolean outcome of the format loop is independent of the document
senders: the originals stage's result is discarded. -/
theorem tryFormats_withDocSenders_fst (env : Env)
    (d d' : DocArgs → Except Err Nat)
    (g g' : DocGroupSendArgs → Except Err (List Nat)) (chatId : Nat)
    (files : List String) (captionHtml captionMarkdown : String)
    (replyTo : Option Nat) (initialMessageId : Nat)
    (triggerMessageId : Option Nat) (modes : List (Option PMode))
    (preview : Option Nat) :
    (tryFormats (withDocSenders env d g) chatId files captionHtml
        captionMarkdown replyTo initialMessageId triggerMessageId preview modes).1
      = (tryFormats (withDocSenders env d' g') chatId files captionHtml
        captionMarkdown replyTo initialMessageId triggerMessageId preview modes).1 := by
  induction modes generalizing preview with
  | nil => rfl
  | cons pm rest ih =>
      simp only [tryFormats]
      rw [attemptFormat_withDocSenders env d g,
        attemptFormat_withDocSenders env d' g']
      cases hres : (attemptFormat env chatId files
          (chosenCaption pm captionHtml captionMarkdown) replyTo (strPM pm)
          initialMessageId preview).1 with
      | ok u => simp only [hres]
      | error e =>
          simp only [hres]
          by_cases he : (e == Err.captionTooLong) = true
          · rw [if_pos he, if_pos he]
          · rw [if_neg he, if_neg he]
            simp only []
            exact ih _

/-- The pipeline's reported Boolean is independent of the document senders. -/
theorem send_imagine_result_withDocSenders_fst (env : Env)
    (d d' : DocArgs → Except Err Nat)
    (g g' : DocGroupSendArgs → Except Err (List Nat)) (chatId : Nat)
    (imageUrls : List String) (params : GenParams) (replyTo : Option Nat)
    (initialMessageId : Nat) (finalAnswer : Option String)
    (triggerMessageId : Option Nat) :
    (send_imagine_result (withDocSenders env d g) chatId imageUrls params
        replyTo initialMessageId finalAnswer triggerMessageId).1
      = (send_imagine_result (withDocSenders env d' g') chatId imageUrls params
        replyTo initialMessageId finalAnswer triggerMessageId).1 := by
  unfold send_imagine_result
  rw [downloadImages_withDocSenders, downloadImages_withDocSenders]
  by_cases h1 : imageUrls.isEmpty = true
  · rw [if_pos h1, if_pos h1]
  · rw [if_neg h1, if_neg h1]
    by_cases h2 : (downloadImages env imageUrls).1.isEmpty = true
    · simp only [h2, if_pos]
    · simp only [h2]
      simp only [if_neg, Bool.false_eq_true, if_false]
      exact tryFormats_withDocSenders_fst env d d' g g' chatId
        (downloadImages env imageUrls).1 (captionsFor finalAnswer params).1
        (captionsFor finalAnswer params).2 replyTo initialMessageId
        triggerMessageId parseModes none

/-! ### Format fallback lemmas -/

/-- Items of the captioned photo group carry the chosen parse mode or none. -/
theorem buildPhotoGroup_parseModes (files : List String) (caption : String)
    (parseMode : String) :
    ∀ mi ∈ buildPhotoGroup files caption parseMode,
      mi.parseMode = some parseMode ∨ mi.parseMode = none := by
  rcases files with _ | ⟨f, rest⟩
  · intro mi hmi
    simp [buildPhotoGroup] at hmi
  · intro mi hmi
    rcases List.mem_cons.mp hmi with h | h
    · left
      rw [h]
    · right
      rcases List.mem_map.mp h with ⟨x, _, rfl⟩
      rfl

/-- Items of the caption-free photo group carry no parse mode. -/
theorem buildPhotoGroupNoCaption_parseModes (files : List String) :
    ∀ mi ∈ buildPhotoGroupNoCaption files, mi.parseMode = none := by
  intro mi hmi
  rcases List.mem_map.mp hmi with ⟨x, _, rfl⟩
  rfl

/-- The single-photo sender only emits its captioned send, its caption-free
retry, and the placeholder deletion. -/
theorem send_single_photo_actions (env : Env) (chatId : Nat) (caption : String)
    (replyTo : Option Nat) (parseMode : String) (deleteMessageId : Nat)
    (photo : String) :
    ∀ a ∈ (send_single_photo_with_caption env chatId caption replyTo parseMode
        deleteMessageId photo).2,
      a = Action.sendPhoto ⟨chatId, photo, some caption, replyTo, some parseMode⟩ ∨
      a = Action.sendPhoto ⟨chatId, photo, none, replyTo, none⟩ ∨
      a = Action.deleteMessage chatId deleteMessageId := by
  intro a ha
  unfold send_single_photo_with_caption at ha
  cases h1 : env.sendPhoto ⟨chatId, photo, some caption, replyTo, some parseMode⟩ with
  | ok m =>
      simp only [h1] at ha
      cases h2 : env.deleteMessage chatId deleteMessageId with
      | ok u =>
          simp only [h2] at ha
          simp at ha
          tauto
      | error e =>
          simp only [h2] at ha
          simp at ha
          tauto
  | error e =>
      simp only [h1] at ha
      by_cases he : (e == Err.captionTooLong) = true
      · rw [if_pos he] at ha
        cases h2 : env.sendPhoto ⟨chatId, photo, none, replyTo, none⟩ with
        | ok m =>
            simp only [h2] at ha
            cases h3 : env.deleteMessage chatId deleteMessageId with
            | ok u =>
                simp only [h3] at ha
                simp at ha
                tauto
            | error e2 =>
                simp only [h3] at ha
                simp at ha
                tauto
        | error e2 =>
            simp only [h2] at ha
            simp at ha
            tauto
      · rw [if_neg he] at ha
        simp at ha
        tauto

/-- The photo-group sender only emits its captioned batch send, its
caption-free batch resend, and the placeholder deletion. -/
theorem send_photo_group_actions (env : Env) (chatId : Nat) (caption : String)
    (replyTo : Option Nat) (parseMode : String) (deleteMessageId : Nat)
    (files : List String) :
    ∀ a ∈ (send_photo_group_with_caption env chatId caption replyTo parseMode
        deleteMessageId files).2,
      a = Action.sendMediaGroup
          ⟨chatId, buildPhotoGroup files caption parseMode, replyTo⟩ ∨
      a = Action.sendMediaGroup ⟨chatId, buildPhotoGroupNoCaption files, replyTo⟩ ∨
      a = Action.deleteMessage chatId deleteMessageId := by
  intro a ha
  unfold send_photo_group_with_caption at ha
  cases h1 : env.sendMediaGroup ⟨chatId, buildPhotoGroup files caption parseMode,
      replyTo⟩ with
  | ok ms =>
      simp only [h1] at ha
      cases h2 : env.deleteMessage chatId deleteMessageId with
      | ok u =>
          simp only [h2] at ha
          simp at ha
          tauto
      | error e =>
          simp only [h2] at ha
          simp at ha
          tauto
  | error e =>
      simp only [h1] at ha
      by_cases he : (e == Err.captionTooLong) = true
      · rw [if_pos he] at ha
        cases h2 : env.sendMediaGroup ⟨chatId, buildPhotoGroupNoCaption files,
            replyTo⟩ with
        | ok ms =>
            simp only [h2] at ha
            cases h3 : env.deleteMessage chatId deleteMessageId with
            | ok u =>
                simp only [h3] at ha
                simp at ha
                tauto
            | error e2 =>
                simp only [h3] at ha
                simp at ha
                tauto
        | error e2 =>
            simp only [h2] at ha
            simp at ha
            tauto
      · rw [if_neg he] at ha
        simp at ha
        tauto

/-- Any format-bearing action of one format attempt carries that attempt's
parse-mode string. -/
theorem attemptFormat_format_only (env : Env) (chatId : Nat)
    (files : List String) (caption : String) (replyTo : Option Nat)
    (parseMode : String) (initialMessageId : Nat) (preview : Option Nat) :
    ∀ a ∈ (attemptFormat env chatId files caption replyTo parseMode
        initialMessageId preview).2.1,
      ∀ s, usesFormat s a = true → s = parseMode := by
  intro a ha s hs
  have hphoto : ∀ args : PhotoSendArgs,
      a = Action.sendPhoto args → args.parseMode = some s := by
    intro args haeq
    rw [haeq] at hs
    simpa [usesFormat] using hs
  rcases files with _ | ⟨f, _ | ⟨f2, fs⟩⟩
  · unfold attemptFormat at ha
    cases hr : (send_photo_group_with_caption env chatId caption replyTo
        parseMode initialMessageId []).1 with
    | ok ms =>
        simp only [hr] at ha
        rcases send_photo_group_actions env chatId caption replyTo parseMode
            initialMessageId [] a ha with h | h | h <;> rw [h] at hs
        · simp [usesFormat, buildPhotoGroup] at hs
        · simp [usesFormat, buildPhotoGroupNoCaption] at hs
        · simp [usesFormat] at hs
    | error e =>
        simp only [hr] at ha
        rcases send_photo_group_actions env chatId caption replyTo parseMode
            initialMessageId [] a ha with h | h | h <;> rw [h] at hs
        · simp [usesFormat, buildPhotoGroup] at hs
        · simp [usesFormat, buildPhotoGroupNoCaption] at hs
        · simp [usesFormat] at hs
  · unfold attemptFormat at ha
    cases hr : (send_single_photo_with_caption env chatId caption replyTo
        parseMode initialMessageId f).1 with
    | ok m =>
        simp only [hr] at ha
        rcases send_single_photo_actions env chatId caption replyTo parseMode
            initialMessageId f a ha with h | h | h
        · have := hphoto _ h
          simp at this
          exact this.symm
        · have := hphoto _ h
          simp at this
        · rw [h] at hs
          simp [usesFormat] at hs
    | error e =>
        simp only [hr] at ha
        rcases send_single_photo_actions env chatId caption replyTo parseMode
            initialMessageId f a ha with h | h | h
        · have := hphoto _ h
          simp at this
          exact this.symm
        · have := hphoto _ h
          simp at this
        · rw [h] at hs
          simp [usesFormat] at hs
  · unfold attemptFormat at ha
    cases hr : (send_photo_group_with_caption env chatId caption replyTo
        parseMode initialMessageId (f :: f2 :: fs)).1 with
    | ok ms =>
        simp only [hr] at ha
        rcases send_photo_group_actions env chatId caption replyTo parseMode
            initialMessageId (f :: f2 :: fs) a ha with h | h | h
        · rw [h] at hs
          simp only [usesFormat] at hs
          rcases List.any_eq_true.mp hs with ⟨mi, hmi, hmode⟩
          rcases buildPhotoGroup_parseModes (f :: f2 :: fs) caption parseMode
              mi hmi with hm | hm <;> rw [hm] at hmode <;> simp at hmode
          exact hmode.symm
        · rw [h] at hs
          simp only [usesFormat] at hs
          rcases List.any_eq_true.mp hs with ⟨mi, hmi, hmode⟩
          rw [buildPhotoGroupNoCaption_parseModes (f :: f2 :: fs) mi hmi] at hmode
          simp at hmode
        · rw [h] at hs
          simp [usesFormat] at hs
    | error e =>
        simp only [hr] at ha
        rcases send_photo_group_actions env chatId caption replyTo parseMode
            initialMessageId (f :: f2 :: fs) a ha with h | h | h
        · rw [h] at hs
          simp only [usesFormat] at hs
          rcases List.any_eq_true.mp hs with ⟨mi, hmi, hmode⟩
          rcases buildPhotoGroup_parseModes (f :: f2 :: fs) caption parseMode
              mi hmi with hm | hm <;> rw [hm] at hmode <;> simp at hmode
          exact hmode.symm
        · rw [h] at hs
          simp only [usesFormat] at hs
          rcases List.any_eq_true.mp hs with ⟨mi, hmi, hmode⟩
          rw [buildPhotoGroupNoCaption_parseModes (f :: f2 :: fs) mi hmi] at hmode
          simp at hmode
        · rw [h] at hs
          simp [usesFormat] at hs

/-- Document sends carry no preview format. -/
theorem usesFormat_of_originals (a : Action) (h : isOriginalsSend a = true)
    (s : String) : usesFormat s a = false := by
  cases a <;> simp [usesFormat, isOriginalsSend] at *

/-- A succeeding attempt at the head format short-circuits the loop: the
result is `True` and the trace is that attempt followed by the originals
stage, with the remaining formats untouched. -/
theorem tryFormats_success (env : Env) (chatId : Nat) (files : List String)
    (captionHtml captionMarkdown : String) (replyTo : Option Nat)
    (initialMessageId : Nat) (triggerMessageId : Option Nat)
    (preview : Option Nat) (pm : Option PMode) (rest : List (Option PMode))
    (hok : (attemptFormat env chatId files
        (chosenCaption pm captionHtml captionMarkdown) replyTo (strPM pm)
        initialMessageId preview).1 = Except.ok ()) :
    tryFormats env chatId files captionHtml captionMarkdown replyTo
        initialMessageId triggerMessageId preview (pm :: rest)
      = (true,
         (attemptFormat env chatId files
            (chosenCaption pm captionHtml captionMarkdown) replyTo (strPM pm)
            initialMessageId preview).2.1 ++
         (send_original_files env chatId files
            (attemptFormat env chatId files
              (chosenCaption pm captionHtml captionMarkdown) replyTo (strPM pm)
              initialMessageId preview).2.2 triggerMessageId).2) := by
  simp only [tryFormats]
  rw [hok]

/-- Looking up the head's own key. -/
theorem lookupMedia_cons_self (e : String × List String) (m : MediaFiles) :
    lookupMedia (e :: m) e.1 = e.2 := by
  simp [lookupMedia, List.find?_cons_of_pos]

/-- Looking up a key different from the head's. -/
theorem lookupMedia_cons_ne (e : String × List String) (m : MediaFiles)
    (k : String) (h : ¬e.1 = k) :
    lookupMedia (e :: m) k = lookupMedia m k := by
  simp only [lookupMedia]
  rw [List.find?_cons_of_neg]
  simp [h]

/-- A key absent from the key list looks up to the empty list. -/
theorem lookupMedia_eq_nil_of_not_mem (m : MediaFiles) (k : String)
    (h : k ∉ m.map Prod.fst) : lookupMedia m k = [] := by
  have : m.find? (fun kv => kv.1 == k) = none := by
    rw [List.find?_eq_none]
    intro e he hek
    exact h (List.mem_map.mpr ⟨e, he, by simpa using hek⟩)
  simp [lookupMedia, this]

/-- A mapping with no media has only empty value lists. -/
theorem lookupMedia_eq_nil_of_no_media (m : MediaFiles) (k : String)
    (h : hasMediaFn m = false) : lookupMedia m k = [] := by
  cases hf : m.find? (fun kv => kv.1 == k) with
  | none => simp [lookupMedia, hf]
  | some e =>
      have hmem : e ∈ m := List.mem_of_find?_eq_some hf
      have hemp : e.2.isEmpty = true := by
        by_contra hne
        have : m.any (fun kv => !kv.2.isEmpty) = true :=
          List.any_eq_true.mpr ⟨e, hmem, by simp at hne ⊢; exact hne⟩
        rw [hasMediaFn] at h
        rw [h] at this
        exact Bool.false_ne_true this
      simp [lookupMedia, hf, List.isEmpty_iff.mp hemp]

/-- Pointwise-equal predicates find the same entry. -/
theorem find?_ext {α : Type} (p q : α → Bool) (l : List α)
    (h : ∀ a, p a = q a) : l.find? p = l.find? q := by
  induction l with
  | nil => rfl
  | cons a l ih => rw [List.find?_cons, List.find?_cons, h, ih]

/-- Extending key `k` appends exactly `v` to its value. -/
theorem lookupMedia_mergeStep_self (m : MediaFiles) (k : String)
    (v : List String) :
    lookupMedia (mergeStep m (k, v)) k = lookupMedia m k ++ v := by
  unfold mergeStep
  by_cases hv : v.isEmpty = true
  · rw [List.isEmpty_iff.mp hv]
    simp
  · rw [if_neg hv]
    by_cases hany : m.any (fun e => e.1 == k) = true
    · rw [if_pos hany]
      simp only [lookupMedia]
      rw [List.find?_map]
      rw [find?_ext
        ((fun kv : String × List String => kv.1 == k) ∘
          (fun e => if e.1 == k then (e.1, e.2 ++ v) else e))
        (fun kv => kv.1 == k) m
        (by
          intro a
          by_cases h : a.1 = k <;> simp [h])]
      cases hf : m.find? (fun kv : String × List String => kv.1 == k) with
      | none =>
          rcases List.any_eq_true.mp hany with ⟨e, he, hp⟩
          exact absurd hp (List.find?_eq_none.mp hf e he)
      | some e =>
          have hek := List.find?_some hf
          simp at hek
          simp [hek]
    · rw [if_neg hany]
      have hfnone : m.find? (fun kv : String × List String => kv.1 == k) = none := by
        rw [List.find?_eq_none]
        intro e he hek
        exact hany (List.any_eq_true.mpr ⟨e, he, hek⟩)
      have happ : (m ++ [(k, v)]).find? (fun kv => kv.1 == k) = some (k, v) := by
        rw [List.find?_append, hfnone]
        simp [List.find?]
      simp [lookupMedia, happ, hfnone]

/-- Extending key `k` leaves every other key's value unchanged. -/
theorem lookupMedia_mergeStep_ne (m : MediaFiles) (k k' : String)
    (v : List String) (hne : ¬k = k') :
    lookupMedia (mergeStep m (k, v)) k' = lookupMedia m k' := by
  unfold mergeStep
  by_cases hv : v.isEmpty = true
  · simp [hv]
  · rw [if_neg hv]
    by_cases hany : m.any (fun e => e.1 == k) = true
    · rw [if_pos hany]
      simp only [lookupMedia]
      rw [List.find?_map]
      rw [find?_ext
        ((fun kv : String × List String => kv.1 == k') ∘
          (fun e => if e.1 == k then (e.1, e.2 ++ v) else e))
        (fun kv => kv.1 == k') m
        (by
          intro a
          by_cases h : a.1 = k <;> simp [h])]
      cases hf : m.find? (fun kv : String × List String => kv.1 == k') with
      | none => simp
      | some e =>
          have hek' : e.1 = k' := by simpa using List.find?_some hf
          have hekk : ¬e.1 = k := by
            rw [hek']
            exact fun hc => hne hc.symm
          simp [hekk]
    · rw [if_neg hany]
      simp only [lookupMedia]
      rw [List.find?_append]
      have hlast : List.find? (fun kv : String × List String => kv.1 == k')
          [(k, v)] = none := by
        rw [List.find?_cons_of_neg [] (by simpa using hne)]
        rfl
      rw [hlast]
      simp

/-- Folding the reply's entries into the trigger mapping concatenates
value lists key-wise, given dict-like (duplicate-free) reply keys. -/
theorem foldl_mergeStep_lookup (r : MediaFiles) (t : MediaFiles) (k : String)
    (hnd : (r.map Prod.fst).Nodup) :
    lookupMedia (r.foldl mergeStep t) k = lookupMedia t k ++ lookupMedia r k := by
  induction r generalizing t with
  | nil => simp [lookupMedia]
  | cons e r ih =>
      simp only [List.map_cons, List.nodup_cons] at hnd
      obtain ⟨he, hnd'⟩ := hnd
      rw [List.foldl_cons, ih _ hnd']
      by_cases hk : e.1 = k
      · subst hk
        have h1 : lookupMedia (mergeStep t e) e.1 = lookupMedia t e.1 ++ e.2 :=
          lookupMedia_mergeStep_self t e.1 e.2
        have h2 : lookupMedia r e.1 = [] := lookupMedia_eq_nil_of_not_mem r e.1 he
        rw [h1, h2, lookupMedia_cons_self]
        simp
      · have h1 : lookupMedia (mergeStep t e) k = lookupMedia t k :=
          lookupMedia_mergeStep_ne t e.1 k e.2 hk
        rw [h1, lookupMedia_cons_ne e r k hk]

/-- C6: when the triggering message and the replied-to message both
contribute media, the merged mapping at every media kind is the trigger's
list concatenated with the reply's list — trigger first, order preserved,
no interleaving — and kinds present only in the reply therefore carry
exactly the reply's list. -/
theorem c6_merge_concatenates_reply_after_trigger
    (trigger reply : MediaFiles) (k : String)
    (hnd : (reply.map Prod.fst).Nodup)
    (ht : hasMediaFn trigger = true) (hr : hasMediaFn reply = true) :
    lookupMedia (merge_media_files trigger reply) k
      = lookupMedia trigger k ++ lookupMedia reply k := by
  have hrne : reply.isEmpty = false := by
    cases reply with
    | nil => simp [hasMediaFn] at hr
    | cons e r => rfl
  have htne : trigger.isEmpty = false := by
    cases trigger with
    | nil => simp [hasMediaFn] at ht
    | cons e r => rfl
  unfold merge_media_files
  rw [hr, hrne, htne]
  simp only [Bool.not_false, Bool.and_true, if_true, Bool.true_and, if_false]
  exact foldl_mergeStep_lookup reply trigger k hnd

/-- Witness for C6 at concrete trigger and reply mappings. -/
theorem c6_witness :
    lookupMedia (merge_media_files [("photos", ["a", "b"])]
        [("photos", ["c"]), ("documents", ["d"])]) "photos"
      = lookupMedia [("photos", ["a", "b"])] "photos" ++
        lookupMedia [("photos", ["c"]), ("documents", ["d"])] "photos" :=
  c6_merge_concatenates_reply_after_trigger
    [("photos", ["a", "b"])] [("photos", ["c"]), ("documents", ["d"])] "photos"
    (by decide) (by decide) (by decide)

/-- `urlparse` splits `;params` off the last path segment, as the embedded
`urlPath` does. -/
theorem urlPath_splits_params : urlPath "http://e/x.jpg;v" = "/x.jpg" := by
  decide

/-- `Path(p).name` strips trailing slashes, as the embedded `pathName`
does. -/
theorem pathName_strips_trailing_slash : pathName "/a/x.jpg/" = "x.jpg" := by
  decide

/-- Trailing-slash URLs with the same basename also collide on the target
name `x.jpg` — the filename derivation keeps the path-derived name there,
never the uuid fallback. -/
theorem filename_trailing_slash_collides :
    filename_for_url "https://e/a/x.jpg/" "aaaa1111" = "x.jpg" ∧
    filename_for_url "https://e/b/x.jpg/" "bbbb2222" = "x.jpg" :=
  ⟨by decide, by decide⟩

/-! ## Claims -/

/-- C1: every triggering message is first recorded into the cache; a
message with a media-group identifier then has the cached fragment count
read: exactly one debounce wait happens when that count is ≤ 1 and none
when it is > 1, and the fragments finally processed are read from the
post-wait cache in the former case and from the current cache otherwise; a
message with no group identifier is processed immediately with no wait. -/
theorem c1_aggregator_records_then_debounces (cache : MediaCache) (msg : TgMsg)
    (arrive : MediaCache → MediaCache) :
    (collect_media_group_files cache msg arrive).2.head? =
      some (AggEvent.cacheAdd msg.messageId) ∧
    (collect_media_group_files cache msg arrive).2.count AggEvent.sleepDebounce =
      (if pyOptStrTruthy msg.mediaGroupId &&
          decide ((get_media_group_messages
              (add_message_to_media_group_cache cache msg) msg).length ≤ 1)
       then 1 else 0) ∧
    (collect_media_group_files cache msg arrive).2.getLast? =
      some (AggEvent.downloadGroup
        (if pyOptStrTruthy msg.mediaGroupId &&
            decide ((get_media_group_messages
                (add_message_to_media_group_cache cache msg) msg).length ≤ 1)
         then get_media_group_messages
            (arrive (add_message_to_media_group_cache cache msg)) msg
         else get_media_group_messages
            (add_message_to_media_group_cache cache msg) msg)) := by
  cases hg : pyOptStrTruthy msg.mediaGroupId with
  | false =>
      refine ⟨?_, ?_, ?_⟩ <;>
        simp [collect_media_group_files, hg, List.count_cons, List.count_nil]
  | true =>
      by_cases hc : (get_media_group_messages
          (add_message_to_media_group_cache cache msg) msg).length ≤ 1
      · refine ⟨?_, ?_, ?_⟩ <;>
          simp [collect_media_group_files, hg, hc, List.count_cons, List.count_nil]
      · refine ⟨?_, ?_, ?_⟩ <;>
          simp [collect_media_group_files, hg, hc, List.count_cons, List.count_nil]

/-- Witness for C1 at a concrete cache, group message, and arrival. -/
theorem c1_witness :
    (collect_media_group_files [] ⟨5, some "g"⟩
        (fun c => c.map (fun kv => (kv.1, kv.2 ++ [9])))).2.head? =
      some (AggEvent.cacheAdd 5) ∧
    (collect_media_group_files [] ⟨5, some "g"⟩
        (fun c => c.map (fun kv => (kv.1, kv.2 ++ [9])))).2.count AggEvent.sleepDebounce =
      (if pyOptStrTruthy (some "g") &&
          decide ((get_media_group_messages
              (add_message_to_media_group_cache [] ⟨5, some "g"⟩) ⟨5, some "g"⟩).length ≤ 1)
       then 1 else 0) ∧
    (collect_media_group_files [] ⟨5, some "g"⟩
        (fun c => c.map (fun kv => (kv.1, kv.2 ++ [9])))).2.getLast? =
      some (AggEvent.downloadGroup
        (if pyOptStrTruthy (some "g") &&
            decide ((get_media_group_messages
                (add_message_to_media_group_cache [] ⟨5, some "g"⟩) ⟨5, some "g"⟩).length ≤ 1)
         then get_media_group_messages
            ((fun c => c.map (fun kv => (kv.1, kv.2 ++ [9])))
              (add_message_to_media_group_cache [] ⟨5, some "g"⟩)) ⟨5, some "g"⟩
         else get_media_group_messages
            (add_message_to_media_group_cache [] ⟨5, some "g"⟩) ⟨5, some "g"⟩)) :=
  c1_aggregator_records_then_debounces [] ⟨5, some "g"⟩
    (fun c => c.map (fun kv => (kv.1, kv.2 ++ [9])))

/-- C2: for every list of generated asset URLs, only the first 10 URLs are
ever fetched (the download trace is exactly one fetch per URL of
`imageUrls.take 10`, in order), and the resulting list of downloaded local
files is the successful fetches of those URLs in URL-list order, with
failed downloads dropped rather than aborting the batch. -/
theorem c2_download_cap_order_drop (env : Env) (imageUrls : List String) :
    downloadImages env imageUrls =
      ((imageUrls.take 10).filterMap env.download,
       (imageUrls.take 10).map Action.download) :=
  downloadImages_spec env imageUrls

/-- C7: when every download fails, `_send_imagine_result` returns `False`
and its trace holds download attempts only — no send of any kind, no
placeholder deletion. -/
theorem c7_total_download_failure_no_sends (env : Env) (chatId : Nat)
    (imageUrls : List String) (params : GenParams) (replyTo : Option Nat)
    (initialMessageId : Nat) (finalAnswer : Option String)
    (triggerMessageId : Option Nat)
    (hfail : ∀ u ∈ imageUrls, env.download u = none) :
    (send_imagine_result env chatId imageUrls params replyTo initialMessageId
        finalAnswer triggerMessageId).1 = false ∧
    ∀ a ∈ (send_imagine_result env chatId imageUrls params replyTo
        initialMessageId finalAnswer triggerMessageId).2,
      ∃ u, a = Action.download u := by
  have hdl : downloadImages env imageUrls
      = ([], (imageUrls.take 10).map Action.download) := by
    rw [downloadImages_spec]
    have : (imageUrls.take 10).filterMap env.download = [] := by
      rw [List.filterMap_eq_nil_iff]
      intro u hu
      exact hfail u (List.take_subset 10 imageUrls hu)
    rw [this]
  cases hemp : imageUrls.isEmpty with
  | true =>
      constructor
      · simp [send_imagine_result, hemp]
      · intro a ha
        simp [send_imagine_result, hemp] at ha
  | false =>
      have htr : send_imagine_result env chatId imageUrls params replyTo
          initialMessageId finalAnswer triggerMessageId
          = (false, (imageUrls.take 10).map Action.download) := by
        unfold send_imagine_result
        rw [hdl]
        simp [hemp]
      refine ⟨by rw [htr], ?_⟩
      intro a ha
      rw [htr] at ha
      rcases List.mem_map.mp ha with ⟨u, _, rfl⟩
      exact ⟨u, rfl⟩

/-- Environment whose downloads all fail, for the C7 witness. -/
def envAllFail : Env where
  download := fun _ => none
  sendPhoto := fun _ => Except.ok 1
  sendMediaGroup := fun _ => Except.ok [1]
  deleteMessage := fun _ _ => Except.ok ()
  sendDocument := fun _ => Except.ok 1
  sendDocGroup := fun _ => Except.ok [1]

/-- Witness for C7 at a concrete failing environment. -/
theorem c7_witness :
    (send_imagine_result envAllFail 1 ["http://a/x.jpg"] ⟨none, none⟩ none 9
        none none).1 = false ∧
    ∀ a ∈ (send_imagine_result envAllFail 1 ["http://a/x.jpg"] ⟨none, none⟩
        none 9 none none).2, ∃ u, a = Action.download u :=
  c7_total_download_failure_no_sends envAllFail 1 ["http://a/x.jpg"]
    ⟨none, none⟩ none 9 none none (fun _ _ => rfl)

/-- C8 counterexample: two distinct asset URLs whose paths share the same
basename with a recognized image extension receive the same target
filename even under distinct random draws — the scheme does not guarantee
distinct target names for distinct URLs. -/
theorem c8_counterexample :
    ("https://img.example.com/a/x.jpg" : String) ≠ "https://img.example.com/b/x.jpg" ∧
    filename_for_url "https://img.example.com/a/x.jpg" "aaaa1111" =
      filename_for_url "https://img.example.com/b/x.jpg" "bbbb2222" :=
  ⟨by decide, by decide⟩

/-- C8 amended: the filename is taken from the URL path when it ends in a
recognized image extension and a random unique name is generated otherwise;
distinct target names are guaranteed only between downloads that take the
random-name fallback (given distinct random draws) — URL-path-derived names
may collide across distinct URLs. -/
theorem c8_amended_fallback_names_unique (u1 u2 h1 h2 : String)
    (hfb1 : (!(pyStrTruthy (pathName (urlPath u1))) ||
             !(hasImageExt (pathName (urlPath u1)))) = true)
    (hfb2 : (!(pyStrTruthy (pathName (urlPath u2))) ||
             !(hasImageExt (pathName (urlPath u2)))) = true)
    (hne : h1 ≠ h2) :
    filename_for_url u1 h1 = h1 ++ ".jpeg" ∧
    filename_for_url u2 h2 = h2 ++ ".jpeg" ∧
    filename_for_url u1 h1 ≠ filename_for_url u2 h2 := by
  have e1 : filename_for_url u1 h1 = h1 ++ ".jpeg" := by
    unfold filename_for_url
    rw [hfb1]
    simp
  have e2 : filename_for_url u2 h2 = h2 ++ ".jpeg" := by
    unfold filename_for_url
    rw [hfb2]
    simp
  refine ⟨e1, e2, ?_⟩
  rw [e1, e2]
  intro hcontra
  exact hne (string_append_right_cancel h1 h2 ".jpeg" hcontra)

/-- Witness for the amended C8 at two extension-less URLs. -/
theorem c8_amended_witness :
    filename_for_url "http://e/x" "aaaa1111" = "aaaa1111" ++ ".jpeg" ∧
    filename_for_url "http://e/y" "bbbb2222" = "bbbb2222" ++ ".jpeg" ∧
    filename_for_url "http://e/x" "aaaa1111" ≠ filename_for_url "http://e/y" "bbbb2222" :=
  c8_amended_fallback_names_unique "http://e/x" "http://e/y" "aaaa1111" "bbbb2222"
    (by decide) (by decide) (by decide)

/-- In any suffix of the fixed fallback ordering, the formats after the
head have parse-mode strings different from the head's. -/
theorem strPM_ne_of_rest (pm pm' : Option PMode) (rest : List (Option PMode))
    (hmodes : pm :: rest = parseModes ∨
      pm :: rest = [some PMode.markdownV2, none] ∨ pm :: rest = [none])
    (hpm' : pm' ∈ rest) : strPM pm' ≠ strPM pm := by
  rcases hmodes with h3 | h3 | h3
  · simp only [parseModes] at h3
    injection h3 with h4 h5
    subst h4
    subst h5
    simp at hpm'
    rcases hpm' with rfl | rfl <;> decide
  · injection h3 with h4 h5
    subst h4
    subst h5
    simp at hpm'
    subst hpm'
    decide
  · injection h3 with h4 h5
    subst h4
    subst h5
    simp at hpm'

/-- C3: the preview send walks the fixed format order HTML, MarkdownV2,
no-formatting; once the attempt at the current format succeeds, the loop
returns overall success and no action of the run carries any later
format. -/
theorem c3_format_success_stops_fallback (env : Env) (chatId : Nat)
    (files : List String) (captionHtml captionMarkdown : String)
    (replyTo : Option Nat) (initialMessageId : Nat)
    (triggerMessageId : Option Nat) (preview : Option Nat)
    (pm : Option PMode) (rest : List (Option PMode))
    (hmodes : pm :: rest = parseModes ∨
      pm :: rest = [some PMode.markdownV2, none] ∨ pm :: rest = [none])
    (hok : (attemptFormat env chatId files
        (chosenCaption pm captionHtml captionMarkdown) replyTo (strPM pm)
        initialMessageId preview).1 = Except.ok ()) :
    parseModes = [some PMode.html, some PMode.markdownV2, none] ∧
    (tryFormats env chatId files captionHtml captionMarkdown replyTo
        initialMessageId triggerMessageId preview (pm :: rest)).1 = true ∧
    ∀ pm' ∈ rest, ∀ a ∈ (tryFormats env chatId files captionHtml
        captionMarkdown replyTo initialMessageId triggerMessageId preview
        (pm :: rest)).2, usesFormat (strPM pm') a = false := by
  have htr := tryFormats_success env chatId files captionHtml captionMarkdown
    replyTo initialMessageId triggerMessageId preview pm rest hok
  refine ⟨rfl, by rw [htr], ?_⟩
  intro pm' hpm' a ha
  rw [htr] at ha
  rcases List.mem_append.mp ha with h | h
  · by_contra hcontra
    rw [Bool.not_eq_false] at hcontra
    exact strPM_ne_of_rest pm pm' rest hmodes hpm'
      (attemptFormat_format_only env chatId files
        (chosenCaption pm captionHtml captionMarkdown) replyTo (strPM pm)
        initialMessageId preview a h (strPM pm') hcontra)
  · exact usesFormat_of_originals a
      (send_original_files_actions env chatId files _ triggerMessageId a h)
      (strPM pm')

/-- Environment whose sends all succeed, for the C3 witness. -/
def envPlain : Env where
  download := fun u => some u
  sendPhoto := fun _ => Except.ok 100
  sendMediaGroup := fun a => Except.ok (a.media.map (fun _ => 100))
  deleteMessage := fun _ _ => Except.ok ()
  sendDocument := fun _ => Except.ok 1
  sendDocGroup := fun _ => Except.ok [1]

/-- Witness for C3: a first-format success reports overall success. -/
theorem c3_witness :
    (tryFormats envPlain 1 ["pf"] "caph" "capm" (some 42) 9 (some 42) none
        parseModes).1 = true :=
  (c3_format_success_stops_fallback envPlain 1 ["pf"] "caph" "capm" (some 42)
    9 (some 42) none (some PMode.html) [some PMode.markdownV2, none]
    (Or.inl rfl) rfl).2.1

/-- C4: a caption-too-long failure triggers exactly one retry of the same
send with the caption omitted entirely (single photo and batch variants),
never an advance to the next format; when the retry succeeds the loop
reports overall success, the no-caption retry is in the trace, no later
format is attempted, and originals delivery still proceeds. -/
theorem c4_caption_too_long_no_caption_retry (env : Env) (chatId : Nat)
    (captionHtml captionMarkdown : String) (replyTo : Option Nat)
    (initialMessageId : Nat) (triggerMessageId : Option Nat)
    (photo : String) (batchFiles : List String) (mid : Nat) (mids : List Nat)
    (pm : Option PMode) (rest : List (Option PMode))
    (hmodes : pm :: rest = parseModes ∨
      pm :: rest = [some PMode.markdownV2, none] ∨ pm :: rest = [none])
    (h1 : env.sendPhoto ⟨chatId, photo,
        some (chosenCaption pm captionHtml captionMarkdown), replyTo,
        some (strPM pm)⟩ = Except.error Err.captionTooLong)
    (h2 : env.sendPhoto ⟨chatId, photo, none, replyTo, none⟩ = Except.ok mid)
    (h3 : env.deleteMessage chatId initialMessageId = Except.ok ())
    (h4 : env.sendMediaGroup ⟨chatId, buildPhotoGroup batchFiles
        (chosenCaption pm captionHtml captionMarkdown) (strPM pm), replyTo⟩
        = Except.error Err.captionTooLong)
    (h5 : env.sendMediaGroup ⟨chatId, buildPhotoGroupNoCaption batchFiles,
        replyTo⟩ = Except.ok mids) :
    send_single_photo_with_caption env chatId
        (chosenCaption pm captionHtml captionMarkdown) replyTo (strPM pm)
        initialMessageId photo
      = (Except.ok mid,
         [Action.sendPhoto ⟨chatId, photo,
            some (chosenCaption pm captionHtml captionMarkdown), replyTo,
            some (strPM pm)⟩,
          Action.sendPhoto ⟨chatId, photo, none, replyTo, none⟩,
          Action.deleteMessage chatId initialMessageId]) ∧
    send_photo_group_with_caption env chatId
        (chosenCaption pm captionHtml captionMarkdown) replyTo (strPM pm)
        initialMessageId batchFiles
      = (Except.ok mids,
         [Action.sendMediaGroup ⟨chatId, buildPhotoGroup batchFiles
            (chosenCaption pm captionHtml captionMarkdown) (strPM pm), replyTo⟩,
          Action.sendMediaGroup ⟨chatId, buildPhotoGroupNoCaption batchFiles,
            replyTo⟩,
          Action.deleteMessage chatId initialMessageId]) ∧
    (tryFormats env chatId [photo] captionHtml captionMarkdown replyTo
        initialMessageId triggerMessageId none (pm :: rest)).1 = true ∧
    Action.sendPhoto ⟨chatId, photo, none, replyTo, none⟩ ∈
      (tryFormats env chatId [photo] captionHtml captionMarkdown replyTo
        initialMessageId triggerMessageId none (pm :: rest)).2 ∧
    (∃ a ∈ (tryFormats env chatId [photo] captionHtml captionMarkdown replyTo
        initialMessageId triggerMessageId none (pm :: rest)).2,
      isOriginalsSend a = true) ∧
    ∀ pm' ∈ rest, ∀ a ∈ (tryFormats env chatId [photo] captionHtml
        captionMarkdown replyTo initialMessageId triggerMessageId none
        (pm :: rest)).2, usesFormat (strPM pm') a = false := by
  have hA : send_single_photo_with_caption env chatId
      (chosenCaption pm captionHtml captionMarkdown) replyTo (strPM pm)
      initialMessageId photo
      = (Except.ok mid,
         [Action.sendPhoto ⟨chatId, photo,
            some (chosenCaption pm captionHtml captionMarkdown), replyTo,
            some (strPM pm)⟩,
          Action.sendPhoto ⟨chatId, photo, none, replyTo, none⟩,
          Action.deleteMessage chatId initialMessageId]) := by
    unfold send_single_photo_with_caption
    simp [h1, h2, h3]
  have hB : send_photo_group_with_caption env chatId
      (chosenCaption pm captionHtml captionMarkdown) replyTo (strPM pm)
      initialMessageId batchFiles
      = (Except.ok mids,
         [Action.sendMediaGroup ⟨chatId, buildPhotoGroup batchFiles
            (chosenCaption pm captionHtml captionMarkdown) (strPM pm), replyTo⟩,
          Action.sendMediaGroup ⟨chatId, buildPhotoGroupNoCaption batchFiles,
            replyTo⟩,
          Action.deleteMessage chatId initialMessageId]) := by
    unfold send_photo_group_with_caption
    simp [h4, h5, h3]
  have hatt : attemptFormat env chatId [photo]
      (chosenCaption pm captionHtml captionMarkdown) replyTo (strPM pm)
      initialMessageId none
      = (Except.ok (),
         [Action.sendPhoto ⟨chatId, photo,
            some (chosenCaption pm captionHtml captionMarkdown), replyTo,
            some (strPM pm)⟩,
          Action.sendPhoto ⟨chatId, photo, none, replyTo, none⟩,
          Action.deleteMessage chatId initialMessageId], some mid) := by
    unfold attemptFormat
    simp only [hA]
  have hok : (attemptFormat env chatId [photo]
      (chosenCaption pm captionHtml captionMarkdown) replyTo (strPM pm)
      initialMessageId none).1 = Except.ok () := by
    rw [hatt]
  have htr := tryFormats_success env chatId [photo] captionHtml
    captionMarkdown replyTo initialMessageId triggerMessageId none pm rest hok
  refine ⟨hA, hB, by rw [htr], ?_, ?_, ?_⟩
  · rw [htr]
    apply List.mem_append_left
    rw [hatt]
    simp
  · obtain ⟨a, hmem, hsend⟩ := send_original_files_attempts env chatId [photo]
      (attemptFormat env chatId [photo]
        (chosenCaption pm captionHtml captionMarkdown) replyTo (strPM pm)
        initialMessageId none).2.2 triggerMessageId (by simp)
    exact ⟨a, by rw [htr]; exact List.mem_append_right _ hmem, hsend⟩
  · intro pm' hpm' a ha
    rw [htr] at ha
    rcases List.mem_append.mp ha with h | h
    · by_contra hcontra
      rw [Bool.not_eq_false] at hcontra
      exact strPM_ne_of_rest pm pm' rest hmodes hpm'
        (attemptFormat_format_only env chatId [photo]
          (chosenCaption pm captionHtml captionMarkdown) replyTo (strPM pm)
          initialMessageId none a h (strPM pm') hcontra)
    · exact usesFormat_of_originals a
        (send_original_files_actions env chatId [photo] _ triggerMessageId a h)
        (strPM pm')

/-- Environment that rejects captioned sends as too long, for the C4
witness. -/
def envCaptionTooLong : Env where
  download := fun u => some u
  sendPhoto := fun a =>
    if a.caption.isSome then Except.error Err.captionTooLong else Except.ok 100
  sendMediaGroup := fun a =>
    if a.media.any (fun mi => mi.caption.isSome) then
      Except.error Err.captionTooLong
    else Except.ok [100]
  deleteMessage := fun _ _ => Except.ok ()
  sendDocument := fun _ => Except.ok 1
  sendDocGroup := fun _ => Except.ok [1]

/-- Witness for C4: the no-caption retry succeeds and the loop reports
overall success. -/
theorem c4_witness :
    (tryFormats envCaptionTooLong 1 ["pf"] "caph" "capm" (some 42) 9 (some 42)
        none parseModes).1 = true :=
  (c4_caption_too_long_no_caption_retry envCaptionTooLong 1 "caph" "capm"
    (some 42) 9 (some 42) "pf" ["fa", "fb"] 100 [100] (some PMode.html)
    [some PMode.markdownV2, none] (Or.inl rfl) rfl rfl rfl rfl rfl).2.2.1

/-- C5: originals delivery makes at most two send attempts; a second
attempt happens only when both the preview and trigger ids are truthy and
distinct — so the failed first attempt's reply target was the preview id —
and that retry targets the trigger id instead; and the pipeline's reported
Boolean does not depend on the document senders at all, so an originals
failure never changes the already-reported preview success. -/
theorem c5_originals_retry_once_preview_then_trigger (env : Env) (chatId : Nat)
    (files : List String) (p t : Option Nat)
    (d d' : DocArgs → Except Err Nat)
    (g g' : DocGroupSendArgs → Except Err (List Nat))
    (imageUrls : List String) (params : GenParams) (replyTo : Option Nat)
    (initialMessageId : Nat) (finalAnswer : Option String) :
    (originalsReplyTargets (send_original_files env chatId files p t).2).length ≤ 2 ∧
    ((originalsReplyTargets (send_original_files env chatId files p t).2).length = 2 →
      pyIdTruthy p = true ∧ pyIdTruthy t = true ∧ p ≠ t ∧
      originalsReplyTargets (send_original_files env chatId files p t).2 = [p, t]) ∧
    (send_imagine_result (withDocSenders env d g) chatId imageUrls params
        replyTo initialMessageId finalAnswer t).1
      = (send_imagine_result (withDocSenders env d' g') chatId imageUrls params
        replyTo initialMessageId finalAnswer t).1 := by
  refine ⟨?_, ?_, send_imagine_result_withDocSenders_fst env d d' g g' chatId
    imageUrls params replyTo initialMessageId finalAnswer t⟩
  · rcases send_original_files_targets env chatId files p t with h | h | ⟨h, _⟩ <;>
      rw [h] <;> simp
  · intro hlen
    rcases send_original_files_targets env chatId files p t with h | h | ⟨h, h1, h2, h3⟩
    · rw [h] at hlen
      simp at hlen
    · rw [h] at hlen
      simp at hlen
    · exact ⟨h1, h2, h3, h⟩

/-- Environment whose document sends fail, for the C5 witness. -/
def envDocFail : Env where
  download := fun u => some u
  sendPhoto := fun _ => Except.ok 100
  sendMediaGroup := fun a => Except.ok (a.media.map (fun _ => 100))
  deleteMessage := fun _ _ => Except.ok ()
  sendDocument := fun _ => Except.error (Err.other 1)
  sendDocGroup := fun _ => Except.error (Err.other 1)

/-- Witness for C5 at a failing originals stage with distinct truthy ids. -/
theorem c5_witness :
    (originalsReplyTargets (send_original_files envDocFail 1 ["fa"]
        (some 100) (some 42)).2).length ≤ 2 ∧
    ((originalsReplyTargets (send_original_files envDocFail 1 ["fa"]
        (some 100) (some 42)).2).length = 2 →
      pyIdTruthy (some 100) = true ∧ pyIdTruthy (some 42) = true ∧
      (some 100 : Option Nat) ≠ some 42 ∧
      originalsReplyTargets (send_original_files envDocFail 1 ["fa"]
        (some 100) (some 42)).2 = [some 100, some 42]) ∧
    (send_imagine_result (withDocSenders envDocFail (fun _ => Except.ok 7)
        (fun _ => Except.ok [7])) 1 ["u"] ⟨none, none⟩ none 9 (some "ans")
        (some 42)).1
      = (send_imagine_result (withDocSenders envDocFail
        (fun _ => Except.error (Err.other 5))
        (fun _ => Except.error (Err.other 5))) 1 ["u"] ⟨none, none⟩ none 9
        (some "ans") (some 42)).1 :=
  c5_originals_retry_once_preview_then_trigger envDocFail 1 ["fa"] (some 100)
    (some 42) (fun _ => Except.ok 7) (fun _ => Except.error (Err.other 5))
    (fun _ => Except.ok [7]) (fun _ => Except.error (Err.other 5)) ["u"]
    ⟨none, none⟩ none 9 (some "ans")

/-- C9: with neither prompt nor media, the handler sends the fixed usage
message and stops — the generation collaborator is never invoked and no
delivery is attempted. -/
theorem c9_no_prompt_no_media_help_only (genOk : Bool) :
    imagine_command_tail "" false genOk = [HEvent.sendHelp] ∧
    ∀ p : String, HEvent.invokeGeneration p ∉ imagine_command_tail "" false genOk := by
  refine ⟨rfl, ?_⟩
  intro p
  simp [imagine_command_tail, reply_help, pyStrTruthy]

/-- Witness for C9 at a concrete run. -/
theorem c9_witness : imagine_command_tail "" false true = [HEvent.sendHelp] :=
  (c9_no_prompt_no_media_help_only true).1

/-- C10: with an empty prompt but media present, the handler substitutes
the fixed default prompt `"请参考附件信息"` before invoking generation —
the empty prompt is never passed to the collaborator. -/
theorem c10_default_prompt_substitution (genOk : Bool) :
    imagine_command_tail "" true genOk =
      [HEvent.setReaction, HEvent.invokeGeneration defaultMediaPrompt] ++
        (if genOk then [HEvent.sendStreamingResponse] else [HEvent.sendErrorNotice]) ∧
    defaultMediaPrompt = "请参考附件信息" :=
  ⟨by cases genOk <;> rfl, rfl⟩

/-- Witness for C10 at a concrete run. -/
theorem c10_witness :
    imagine_command_tail "" true true =
      [HEvent.setReaction, HEvent.invokeGeneration "请参考附件信息",
       HEvent.sendStreamingResponse] := by
  have h := c10_default_prompt_substitution true
  rw [h.1]
  simp [h.2]

end TelegramDifyBot
